import Mathlib

/-!
Verification of the sandboxed Python code-execution harness
(src/infrastructure/python-execution-service/app.py).

The development shallowly embeds the harness: the two-pass static security
screen (`security_check`), the session store (`get_or_create_session`), the
subprocess executor (`run_code`) and the request orchestration (`execute`).
External effects are made explicit:
  * the Python parser (`ast.parse`) is an oracle `String → Option (List ImpStmt)`
    returning the walked import statements, or `none` on a SyntaxError;
  * the child interpreter process is an oracle (`StepOracle`) that either fails
    at the write or spawn step, completes with outputs and a return code, or
    exceeds the deadline;
  * the filesystem is a list of paths; `tempfile.mkdtemp` freshness is modelled
    by a monotone counter naming each created directory;
  * stream data (stdout / stderr) is modelled at the encoded-byte level as
    `List Nat`, since the output cap of the source is enforced on encoded
    bytes.  The `decode(errors=replace)` step of the source is modelled as the
    identity on the truncated byte prefix.
-/

namespace PyExec

/-! ### Byte-level strings -/

/-- UTF-8 encoding of one code point, byte values as naturals. -/
def utf8Bytes (c : Nat) : List Nat :=
  if c < 0x80 then [c]
  else if c < 0x800 then [0xC0 + c / 64, 0x80 + c % 64]
  else if c < 0x10000 then [0xE0 + c / 4096, 0x80 + (c / 64) % 64, 0x80 + c % 64]
  else [0xF0 + c / 262144, 0x80 + (c / 4096) % 64, 0x80 + (c / 64) % 64, 0x80 + c % 64]

/-- UTF-8 encoding of a string, modelling Python `str.encode()`. -/
def encodeUtf8 (s : String) : List Nat :=
  s.data.flatMap (fun ch => utf8Bytes ch.toNat)

/-! ### A small regular-expression engine

The fourteen blocked patterns of the source use only literal characters,
escaped literals, the class `["  "]` of the two quote characters, `\s*` and
`.*`.  The engine below interprets exactly these constructs with the
semantics of Python `re`: `\s` is the ASCII whitespace class and `.` matches
every character except a newline. -/

/-- One element of a compiled blocked pattern. -/
inductive RE where
  | lit (c : Char)
  | cls (cs : List Char)
  | wsStar
  | anyStar
deriving DecidableEq, Repr

/-- The characters matched by `\s` in Python `re` on str patterns: the ASCII
whitespace characters together with the Unicode whitespace code points that
CPython recognizes (U+001C-001F, NEL, NBSP, OGHAM, the U+2000 range, LS, PS,
NNBSP, MMSP, IDSP). -/
def wsChar (c : Char) : Bool :=
  (0x09 ≤ c.toNat && c.toNat ≤ 0x0d) || c.toNat = 0x20 ||
  (0x1c ≤ c.toNat && c.toNat ≤ 0x1f) || c.toNat = 0x85 || c.toNat = 0xa0 ||
  c.toNat = 0x1680 || (0x2000 ≤ c.toNat && c.toNat ≤ 0x200a) ||
  c.toNat = 0x2028 || c.toNat = 0x2029 || c.toNat = 0x202f ||
  c.toNat = 0x205f || c.toNat = 0x3000

/-- Characters matched by `.` in Python `re` (everything except newline). -/
def dotChar (c : Char) : Bool := c ≠ '\n'

/-- Suffixes of `l` reachable by consuming a (possibly empty) run of
characters satisfying `p`: the ways a starred class can advance. -/
def starSuffixes (p : Char → Bool) : List Char → List (List Char)
  | [] => [[]]
  | d :: ds => (d :: ds) :: (if p d then starSuffixes p ds else [])

/-- Does the pattern match a prefix of `ds`? -/
def matchAt : List RE → List Char → Bool
  | [], _ => true
  | RE.lit c :: ps, ds =>
    match ds with
    | [] => false
    | d :: ds2 => c = d && matchAt ps ds2
  | RE.cls cs :: ps, ds =>
    match ds with
    | [] => false
    | d :: ds2 => cs.contains d && matchAt ps ds2
  | RE.wsStar :: ps, ds => (starSuffixes wsChar ds).any (fun t => matchAt ps t)
  | RE.anyStar :: ps, ds => (starSuffixes dotChar ds).any (fun t => matchAt ps t)

/-- Does the pattern match all of `ds`?  Used to talk about the exact code
fragment a pattern matched. -/
def matchExact : List RE → List Char → Bool
  | [], ds => ds.isEmpty
  | RE.lit c :: ps, ds =>
    match ds with
    | [] => false
    | d :: ds2 => c = d && matchExact ps ds2
  | RE.cls cs :: ps, ds =>
    match ds with
    | [] => false
    | d :: ds2 => cs.contains d && matchExact ps ds2
  | RE.wsStar :: ps, ds => (starSuffixes wsChar ds).any (fun t => matchExact ps t)
  | RE.anyStar :: ps, ds => (starSuffixes dotChar ds).any (fun t => matchExact ps t)

/-- Does the pattern match starting at some position?  Models `re.search`,
which only reports whether a match exists. -/
def searchFrom (ps : List RE) : List Char → Bool
  | [] => matchAt ps []
  | d :: ds => matchAt ps (d :: ds) || searchFrom ps ds

/-- `re.search(pattern, code)` viewed as a Boolean. -/
def reSearch (ps : List RE) (s : String) : Bool := searchFrom ps s.data

/-! ### Security: import blocklist and pattern blocklist -/

/-- Source constant `BLOCKED_MODULES`: modules entirely forbidden in user
code (the source uses a frozenset; order is irrelevant to membership). -/
def BLOCKED_MODULES : List String :=
  ["subprocess", "multiprocessing", "ctypes", "cffi", "pty",
   "signal", "resource", "mmap", "sysconfig", "distutils",
   "socket", "ssl", "asyncio",
   "shutil",
   "code", "codeop", "compileall", "py_compile",
   "builtins",
   "importlib"]

/-- The single-quote character, written via its code point. -/
def QUOTE : Char := Char.ofNat 39

/-- Shorthand: a run of literal characters. -/
def lits (s : String) : List RE := s.data.map RE.lit

/-- Source constant `COMPILED_BLOCKED_PATTERNS`, in source order.  Each entry
pairs the raw pattern text (the `pattern.pattern` attribute used in the
rejection reason) with its interpretation in the engine above. -/
def COMPILED_BLOCKED_PATTERNS : List (String × List RE) :=
  [("os\\s*\\.\\s*system\\s*\\(",
    lits "os" ++ [RE.wsStar, RE.lit '.', RE.wsStar] ++ lits "system" ++ [RE.wsStar, RE.lit '(']),
   ("os\\s*\\.\\s*popen\\s*\\(",
    lits "os" ++ [RE.wsStar, RE.lit '.', RE.wsStar] ++ lits "popen" ++ [RE.wsStar, RE.lit '(']),
   ("os\\s*\\.\\s*execv",
    lits "os" ++ [RE.wsStar, RE.lit '.', RE.wsStar] ++ lits "execv"),
   ("os\\s*\\.\\s*fork\\s*\\(",
    lits "os" ++ [RE.wsStar, RE.lit '.', RE.wsStar] ++ lits "fork" ++ [RE.wsStar, RE.lit '(']),
   ("os\\s*\\.\\s*spawn",
    lits "os" ++ [RE.wsStar, RE.lit '.', RE.wsStar] ++ lits "spawn"),
   ("os\\s*\\.\\s*kill\\s*\\(",
    lits "os" ++ [RE.wsStar, RE.lit '.', RE.wsStar] ++ lits "kill" ++ [RE.wsStar, RE.lit '(']),
   ("shutil\\s*\\.\\s*rmtree",
    lits "shutil" ++ [RE.wsStar, RE.lit '.', RE.wsStar] ++ lits "rmtree"),
   ("__import__\\s*\\(",
    lits "__import__" ++ [RE.wsStar, RE.lit '(']),
   ("eval\\s*\\(",
    lits "eval" ++ [RE.wsStar, RE.lit '(']),
   ("exec\\s*\\(",
    lits "exec" ++ [RE.wsStar, RE.lit '(']),
   ("compile\\s*\\(",
    lits "compile" ++ [RE.wsStar, RE.lit '(']),
   ("open\\s*\\(.*[\"\\\x27]w[\"\\\x27]",
    lits "open" ++ [RE.wsStar, RE.lit '(', RE.anyStar, RE.cls ['"', QUOTE], RE.lit 'w',
                    RE.cls ['"', QUOTE]]),
   ("globals\\s*\\(\\s*\\)",
    lits "globals" ++ [RE.wsStar, RE.lit '(', RE.wsStar, RE.lit ')']),
   ("locals\\s*\\(\\s*\\)",
    lits "locals" ++ [RE.wsStar, RE.lit '(', RE.wsStar, RE.lit ')'])]

/-- Source constant `BLOCKED_PATTERNS` (raw pattern texts, same order). -/
def BLOCKED_PATTERNS : List String := COMPILED_BLOCKED_PATTERNS.map Prod.fst

/-! ### Security: the two-pass check -/

/-- The import statements that `ast.walk` yields from a parsed module, in walk
order.  `imp` models `ast.Import` (one entry per alias, carrying the dotted
module name; the `as` name is never inspected by the source).  `impFrom`
models `ast.ImportFrom` (`module` is `none` for relative imports). -/
inductive ImpStmt where
  | imp (names : List String)
  | impFrom (module : Option String)
deriving DecidableEq, Repr

/-- Python `name.split(".")[0]`: everything before the first dot. -/
def topModule (s : String) : String := String.mk (s.data.takeWhile (fun c => c ≠ '.'))

/-- Pass 1 of `security_check`: walk the import statements and return the
rejection reason of the first blocked import, if any. -/
def importPass : List ImpStmt → Option String
  | [] => none
  | ImpStmt.imp names :: rest =>
    match names.find? (fun nm => BLOCKED_MODULES.contains (topModule nm)) with
    | some nm => some ("Security: import of \x27" ++ nm ++ "\x27 is not permitted")
    | none => importPass rest
  | ImpStmt.impFrom m :: rest =>
    if BLOCKED_MODULES.contains (topModule (m.getD "")) then
      some ("Security: \x27from " ++ m.getD "None" ++ " import ...\x27 is not permitted")
    else importPass rest

/-- The rejection reason produced by the pattern pass, from the raw pattern
text: `Security: pattern p[:60] is not permitted` (quoted). -/
def mkPatternReason (src : String) : String :=
  "Security: pattern \x27" ++ String.mk (src.data.take 60) ++ "\x27 is not permitted"

/-- Pass 2 of `security_check`: scan the raw code text against the compiled
patterns in order; the first match wins. -/
def patternPass (code : String) : Bool × String :=
  match COMPILED_BLOCKED_PATTERNS.find? (fun pr => reSearch pr.2 code) with
  | some pr => (false, mkPatternReason pr.1)
  | none => (true, "")

/-- Source function `security_check(code)`.  `parse` is the `ast.parse`
oracle: `none` models a SyntaxError, in which case the import pass is skipped
(the source catches the SyntaxError and falls through to the pattern pass). -/
def security_check (parse : String → Option (List ImpStmt)) (code : String) : Bool × String :=
  match parse code with
  | some tree =>
    match importPass tree with
    | some reason => (false, reason)
    | none => patternPass code
  | none => patternPass code

/-! ### JSON payloads

`/execute` reads `request.get_json()`; the dynamic typing of the payload is
load-bearing (the source checks `isinstance(files, list)` and relies on
truthiness), so the request body is embedded as a JSON value.  Numbers are
embedded as integers: no claim depends on fractional values. -/

inductive JValue where
  | null
  | bool (b : Bool)
  | num (n : Int)
  | str (s : String)
  | arr (elems : List JValue)
  | obj (fields : List (String × JValue))

/-- Python truthiness of a JSON value. -/
def JValue.truthy : JValue → Bool
  | JValue.null => false
  | JValue.bool b => b
  | JValue.num n => n ≠ 0
  | JValue.str s => s ≠ ""
  | JValue.arr elems => ¬ elems.isEmpty
  | JValue.obj fields => ¬ fields.isEmpty

/-- Python `d.get(key, dflt)` on an object (callers only apply it to
objects).  JSON objects are modelled with unique keys, as produced by the
JSON decoder. -/
def jget (data : JValue) (key : String) (dflt : JValue) : JValue :=
  match data with
  | JValue.obj fields =>
    match fields.find? (fun kv => kv.1 = key) with
    | some kv => kv.2
    | none => dflt
  | _ => dflt

/-! ### Filesystem and session store -/

/-- Paths: working directories are named by the monotone counter that models
`tempfile.mkdtemp` freshness (the source embeds a session-id or `exec_`
prefix in the directory name; only freshness matters here), and script files
live directly inside a working directory. -/
inductive FsPath where
  | dir (n : Nat)
  | file (dirIdx : Nat) (name : String)
deriving DecidableEq, Repr

/-- Is the path the directory `d` itself or a file inside it?  `rmtree`
removes exactly these. -/
def underDir (d : Nat) : FsPath → Bool
  | FsPath.dir n => n = d
  | FsPath.file n _ => n = d

/-- One record of the in-memory `sessions` store. -/
structure Session where
  id : String
  work_dir : Nat
  created_at : String
  cell_count : Nat
deriving DecidableEq, Repr

/-- Mutable service state threaded explicitly: the `sessions` dict, the
fresh-directory counter, and the filesystem. -/
structure SvcState where
  store : List (String × Session)
  ctr : Nat
  fs : List FsPath
deriving DecidableEq, Repr

/-- Lookup in the `sessions` dict. -/
def slookup : List (String × Session) → String → Option Session
  | [], _ => none
  | kv :: rest, sid => if kv.1 = sid then some kv.2 else slookup rest sid

/-- Source function `get_or_create_session(session_id)`.  `now` stands for
`datetime.utcnow().isoformat()`.  On first reference it creates a fresh
working directory (`tempfile.mkdtemp`) and records the session; afterwards it
returns the stored record unchanged. -/
def get_or_create_session (st : SvcState) (session_id : String) (now : String) :
    Session × SvcState :=
  match slookup st.store session_id with
  | some s => (s, st)
  | none =>
    let s : Session :=
      { id := session_id, work_dir := st.ctr, created_at := now, cell_count := 0 }
    (s, { store := (session_id, s) :: st.store, ctr := st.ctr + 1,
          fs := FsPath.dir st.ctr :: st.fs })

/-- The in-place `session["cell_count"] += 1` of the `/execute` route. -/
def bumpCell (store : List (String × Session)) (sid : String) : List (String × Session) :=
  store.map (fun kv =>
    if kv.1 = sid then (kv.1, { kv.2 with cell_count := kv.2.cell_count + 1 }) else kv)

/-! ### The executor -/

/-- Source constant `MAX_OUTPUT_BYTES` (2 MB). -/
def MAX_OUTPUT_BYTES : Nat := 2 * 1024 * 1024

/-- The truncation notice appended to stdout when the cap is exceeded. -/
def TRUNC_NOTICE : List Nat := encodeUtf8 "\n\n⚠️ [TRUNCATED] Output exceeded 2 MB limit."

/-- The timeout marker appended to stderr: `tstr` stands for the Python
float formatting of `timeout_sec`. -/
def timeoutMarker (tstr : String) : List Nat :=
  encodeUtf8 ("\n⏱️ Execution timed out after " ++ tstr ++ "s")

/-- One step of CPython's UTF-8 decoder: read one sequence starting at byte
`b` with the following bytes in `rest`.  Returns the decoded scalar (or
`none` for a maximal ill-formed subpart, which `errors=replace` turns into
one U+FFFD) and the number of bytes consumed beyond `b`.  The second-byte
ranges encode the rejection of overlong forms and surrogates, and a
truncated-but-valid prefix is consumed as one unit, as CPython does. -/
def readUtf8 (b : Nat) (rest : List Nat) : Option Nat × Nat :=
  if b ≤ 0x7f then (some b, 0)
  else if 0xc2 ≤ b ∧ b ≤ 0xdf then
    match rest with
    | c1 :: _ =>
      if 0x80 ≤ c1 ∧ c1 ≤ 0xbf then (some ((b - 0xc0) * 64 + (c1 - 0x80)), 1)
      else (none, 0)
    | [] => (none, 0)
  else if 0xe0 ≤ b ∧ b ≤ 0xef then
    match rest with
    | c1 :: rest2 =>
      if (if b = 0xe0 then 0xa0 else 0x80) ≤ c1 ∧ c1 ≤ (if b = 0xed then 0x9f else 0xbf) then
        match rest2 with
        | c2 :: _ =>
          if 0x80 ≤ c2 ∧ c2 ≤ 0xbf then
            (some ((b - 0xe0) * 4096 + (c1 - 0x80) * 64 + (c2 - 0x80)), 2)
          else (none, 1)
        | [] => (none, 1)
      else (none, 0)
    | [] => (none, 0)
  else if 0xf0 ≤ b ∧ b ≤ 0xf4 then
    match rest with
    | c1 :: rest2 =>
      if (if b = 0xf0 then 0x90 else 0x80) ≤ c1 ∧ c1 ≤ (if b = 0xf4 then 0x8f else 0xbf) then
        match rest2 with
        | c2 :: rest3 =>
          if 0x80 ≤ c2 ∧ c2 ≤ 0xbf then
            match rest3 with
            | c3 :: _ =>
              if 0x80 ≤ c3 ∧ c3 ≤ 0xbf then
                (some ((b - 0xf0) * 262144 + (c1 - 0x80) * 4096 + (c2 - 0x80) * 64 +
                  (c3 - 0x80)), 3)
              else (none, 2)
            | [] => (none, 2)
          else (none, 1)
        | [] => (none, 1)
      else (none, 0)
    | [] => (none, 0)
  else (none, 0)

/-- The byte-level effect of `bytes.decode(errors=replace)` followed by
re-encoding: valid UTF-8 sequences pass through unchanged, and every maximal
ill-formed subpart becomes the three bytes of U+FFFD.  This is where a 2 MiB
cut through a multibyte character grows the stream by up to two bytes. -/
def pyDecodeEncode : List Nat → List Nat
  | [] => []
  | b :: rest =>
    match readUtf8 b rest with
    | (some cp, extra) => utf8Bytes cp ++ pyDecodeEncode (rest.drop extra)
    | (none, extra) => [0xef, 0xbf, 0xbd] ++ pyDecodeEncode (rest.drop extra)
termination_by l => l.length
decreasing_by all_goals (simp [List.length_drop]; omega)

/-- The output-size limit on stdout (lines 198-200): when the encoded length
exceeds the cap, take the byte prefix, decode it with `errors=replace`
(re-encoded here at the byte level) and append the truncation notice. -/
def capStdout (b : List Nat) : List Nat :=
  if MAX_OUTPUT_BYTES < b.length then
    pyDecodeEncode (b.take MAX_OUTPUT_BYTES) ++ TRUNC_NOTICE
  else b

/-- The output-size limit on stderr (lines 201-203): same truncation and
decode-replace step, but no notice is appended. -/
def capStderr (b : List Nat) : List Nat :=
  if MAX_OUTPUT_BYTES < b.length then pyDecodeEncode (b.take MAX_OUTPUT_BYTES) else b

/-- What `run_code` returns: `{ stdout, stderr, exit_code }`, streams at the
encoded-byte level. -/
structure ExecResult where
  stdout : List Nat
  stderr : List Nat
  exit_code : Int
deriving DecidableEq, Repr

/-- Behaviour of the child interpreter process: it either exits within the
deadline with outputs and a return code, or exceeds the deadline, in which
case `process.kill()` plus the second `communicate()` still collect the
output produced so far. -/
inductive ChildOutcome where
  | completed (out err : List Nat) (returncode : Int)
  | timedOut (out err : List Nat)
deriving DecidableEq, Repr

/-- Behaviour of the effectful steps of `run_code` beyond its own control:
the script write may fail, the spawn may fail (each surfacing a Python
exception with a message), or the child runs. -/
inductive StepOracle where
  | writeFails (msg : String)
  | spawnFails (msg : String)
  | runs (oc : ChildOutcome)
deriving DecidableEq, Repr

/-- Lines 188-204 of the source: wait for the child (timeout branch appends
the marker and forces exit code 124), then enforce the output caps. -/
def runResult (tstr : String) (oc : ChildOutcome) : ExecResult :=
  match oc with
  | ChildOutcome.completed out err rc =>
    { stdout := capStdout out, stderr := capStderr err, exit_code := rc }
  | ChildOutcome.timedOut out err =>
    { stdout := capStdout out, stderr := capStderr (err ++ timeoutMarker tstr),
      exit_code := 124 }

/-- What a `run_code` call did, for stating claims: the `work_dir` argument,
the `stateless` argument, the working directory actually used, and the name
of the per-call script file (inside that directory). -/
structure RunCallInfo where
  providedWd : Option Nat
  stateless : Bool
  usedWd : Nat
  scriptName : String
deriving DecidableEq, Repr

/-- Source function `run_code(code, stdin, timeout_sec, work_dir, stateless)`.
`scriptId` stands for the `uuid.uuid4().hex[:8]` infix of the script name,
`tstr` for the formatted `timeout_sec`.  The `Except` error carries the
message of the escaping Python exception (write or spawn failure); the
`finally` block runs on every path.  `stdin` is only fed to the child, whose
behaviour the oracle already fixes, so it is accepted but not inspected. -/
def run_code (st : SvcState) (scriptId : String) (tstr : String) (oracle : StepOracle)
    (_code : String) (_stdin : JValue) (work_dir : Option Nat) (stateless : Bool) :
    Except String ExecResult × SvcState × RunCallInfo :=
  let own := work_dir.isNone
  let wd := work_dir.getD st.ctr
  let ctr2 := if own then st.ctr + 1 else st.ctr
  let fs1 := if own then FsPath.dir wd :: st.fs else st.fs
  let scriptNm := "script_" ++ scriptId ++ ".py"
  let script := FsPath.file wd scriptNm
  let fs2 := script :: fs1
  let body : Except String ExecResult :=
    match oracle with
    | StepOracle.writeFails m => Except.error m
    | StepOracle.spawnFails m => Except.error m
    | StepOracle.runs oc => Except.ok (runResult tstr oc)
  let fs3 := fs2.filter (fun q => q ≠ script)
  let fs4 := if own && stateless then fs3.filter (fun q => ¬ underDir wd q) else fs3
  (body, { st with ctr := ctr2, fs := fs4 },
   { providedWd := work_dir, stateless := stateless, usedWd := wd, scriptName := scriptNm })

/-! ### The `/execute` route -/

/-- The response envelope.  `status` is the HTTP status; optional fields are
absent (`none`) when the corresponding branch of the source does not emit
them.  The constant `language`/`version` fields of the source are not load
bearing and are represented by `language` alone. -/
structure Response where
  status : Nat
  run : Option ExecResult
  language : Option String
  blocked : Option Bool
  reason : Option String
  session_id : Option JValue
  error : Option String

/-- `{"error": "No JSON payload provided"}, 400`. -/
def noPayloadResp : Response :=
  { status := 400, run := none, language := none, blocked := none, reason := none,
    session_id := none, error := some "No JSON payload provided" }

/-- `{"error": "No code provided"}, 400`. -/
def noCodeResp : Response :=
  { status := 400, run := none, language := none, blocked := none, reason := none,
    session_id := none, error := some "No code provided" }

/-- The rejection envelope of the security branch: HTTP 200, `blocked` flag,
reason, and a lock-message stderr. -/
def blockedResp (reason : String) : Response :=
  { status := 200,
    run := some { stdout := [],
                  stderr := encodeUtf8 ("🔒 Execution blocked by security policy: " ++ reason),
                  exit_code := 1 },
    language := some "python", blocked := some true, reason := some reason,
    session_id := none, error := none }

/-- The `except Exception` envelope: HTTP 500, empty stdout, and a stderr of
`Internal Service Error: str(e)`. -/
def internalErrorResp (msg : String) : Response :=
  { status := 500,
    run := some { stdout := [],
                  stderr := encodeUtf8 ("Internal Service Error: " ++ msg),
                  exit_code := 1 },
    language := some "python", blocked := none, reason := none,
    session_id := none, error := none }

/-- The normal completion envelope: HTTP 200 with the run result and the
request session id value. -/
def successResp (sidv : JValue) (res : ExecResult) : Response :=
  { status := 200, run := some res, language := some "python", blocked := none,
    reason := none, session_id := some sidv, error := none }

/-- Outcome of the code-extraction block (lines 317-324). -/
inductive CodeExtract where
  | found (v : JValue)
  | noCode
  | fault (msg : String)

/-- Lines 317-320: `files = data.get("files", [])`; when `files` is a truthy
list, read `files[0].get("content", "")`.  A first entry that is not an
object raises AttributeError (caught only by the outer handler); a `files`
value that is empty or not a list leaves the code at the empty string. -/
def firstFileContent (data : JValue) : Except String JValue :=
  match jget data "files" (JValue.arr []) with
  | JValue.arr (JValue.obj entry :: _) =>
    Except.ok (jget (JValue.obj entry) "content" (JValue.str ""))
  | JValue.arr (_ :: _) =>
    Except.error "AttributeError: object has no attribute \x27get\x27"
  | _ => Except.ok (JValue.str "")

/-- Lines 317-324: the screened-and-executed code value is the first file
content when truthy, else the top-level `code` field when truthy, else the
request is rejected with `No code provided`. -/
def extract_code (data : JValue) : CodeExtract :=
  match firstFileContent data with
  | Except.error m => CodeExtract.fault m
  | Except.ok c1 =>
    let c2 := if c1.truthy then c1 else jget data "code" (JValue.str "")
    if c2.truthy then CodeExtract.found c2 else CodeExtract.noCode

/-- `data.get("run_timeout", 30000) / 1000.0` requires a number; Python bools
divide as integers.  `none` models the TypeError that a non-numeric value
raises at line 328 (before the security check). -/
def toTimeoutMs : JValue → Option Int
  | JValue.num n => some n
  | JValue.bool b => some (if b then 1 else 0)
  | _ => none

/-- Representative message of the TypeError raised by dividing a non-number
at line 328. -/
def typeErrTimeout : String := "TypeError: unsupported operand type(s) for /"

/-- Representative message of the TypeError raised by `ast.parse` on a
non-string code value. -/
def typeErrAst : String := "TypeError: expected str, bytes or AST object"

/-- Representative message of the TypeError raised when a truthy non-string
session id reaches `session_id[:8]` (or an unhashable one reaches the dict). -/
def typeErrSession : String := "TypeError: session id is not sliceable"

/-- What the orchestration did, for stating claims. -/
structure ExecTrace where
  securityChecked : Bool
  runCall : Option RunCallInfo

/-- Shape the final envelope from the `run_code` return value; an escaping
exception is caught by the outer handler (after the executor cleanup ran). -/
def finishResp (sidv : JValue) (r : Except String ExecResult × SvcState × RunCallInfo) :
    Response × SvcState × ExecTrace :=
  match r.1 with
  | Except.error m => (internalErrorResp m, r.2.1, ⟨true, some r.2.2⟩)
  | Except.ok res => (successResp sidv res, r.2.1, ⟨true, some r.2.2⟩)

/-- The `/execute` route (lines 310-393).  Parameters: the `ast.parse`
oracle, the formatted timeout string, the timestamp, the script-name id, the
child-process oracle, the service state, and the decoded JSON payload. -/
def execute (parse : String → Option (List ImpStmt)) (tstr : String) (now : String)
    (scriptId : String) (oracle : StepOracle) (st : SvcState) (data : JValue) :
    Response × SvcState × ExecTrace :=
  if JValue.truthy data then
    match data with
    | JValue.obj fields =>
      (match extract_code (JValue.obj fields) with
       | CodeExtract.fault m => (internalErrorResp m, st, ⟨false, none⟩)
       | CodeExtract.noCode => (noCodeResp, st, ⟨false, none⟩)
       | CodeExtract.found cv =>
         let stdin := jget (JValue.obj fields) "stdin" (JValue.str "")
         match toTimeoutMs (jget (JValue.obj fields) "run_timeout" (JValue.num 30000)) with
         | none => (internalErrorResp typeErrTimeout, st, ⟨false, none⟩)
         | some _tm =>
           let sidv := jget (JValue.obj fields) "session_id" JValue.null
           match cv with
           | JValue.str codeStr =>
             let sc := security_check parse codeStr
             if sc.1 = false then
               (blockedResp sc.2, st, ⟨true, none⟩)
             else
               if sidv.truthy then
                 match sidv with
                 | JValue.str sid =>
                   let gcr := get_or_create_session st sid now
                   let st2 := { gcr.2 with store := bumpCell gcr.2.store sid }
                   finishResp sidv
                     (run_code st2 scriptId tstr oracle codeStr stdin
                       (some gcr.1.work_dir) false)
                 | _ => (internalErrorResp typeErrSession, st, ⟨true, none⟩)
               else
                 finishResp sidv (run_code st scriptId tstr oracle codeStr stdin none true)
           | _ => (internalErrorResp typeErrAst, st, ⟨false, none⟩))
    | _ =>
      (internalErrorResp "AttributeError: object has no attribute \x27get\x27", st,
       ⟨false, none⟩)
  else (noPayloadResp, st, ⟨false, none⟩)

/-! ### Vocabulary for stating the claims -/

/-- An import statement carrying a blocklisted top-level module. -/
def blockedImport : ImpStmt → Prop
  | ImpStmt.imp names => ∃ nm ∈ names, topModule nm ∈ BLOCKED_MODULES
  | ImpStmt.impFrom m => topModule (m.getD "") ∈ BLOCKED_MODULES

/-- `m` is the top-level module of an import occurring in the statement. -/
def importMentions (m : String) : ImpStmt → Prop
  | ImpStmt.imp names => ∃ nm ∈ names, topModule nm = m
  | ImpStmt.impFrom mo => topModule (mo.getD "") = m

/-- All contiguous fragments of a character list (for quantifying over the
code fragment a pattern matched). -/
def infixesOf (l : List Char) : List (List Char) :=
  l.tails.flatMap List.inits

end PyExec

namespace PyExec

/-! ### Security claims -/

theorem topModule_data_occurs (s : String) : (topModule s).data <:+: s.data :=
  ⟨[], s.data.dropWhile (fun c => c ≠ '.'),
   by simp [topModule, List.takeWhile_append_dropWhile]⟩

theorem contains_mem_iff (l : List String) (a : String) : l.contains a = true ↔ a ∈ l := by
  simp

theorem importPass_finds {tree : List ImpStmt}
    (hb : ∃ stmt ∈ tree, blockedImport stmt) :
    ∃ r m, importPass tree = some r ∧ (∃ stmt ∈ tree, importMentions m stmt) ∧
      m ∈ BLOCKED_MODULES ∧ m.data <:+: r.data := by
  induction tree with
  | nil => simp at hb
  | cons head rest ih =>
    cases head with
    | imp names =>
      cases hf : names.find? (fun nm => BLOCKED_MODULES.contains (topModule nm)) with
      | some nm =>
        have hip : importPass (ImpStmt.imp names :: rest) =
            some ("Security: import of \x27" ++ nm ++ "\x27 is not permitted") := by
          show (match names.find? (fun nm => BLOCKED_MODULES.contains (topModule nm)) with
            | some nm => some ("Security: import of \x27" ++ nm ++ "\x27 is not permitted")
            | none => importPass rest) = _
          rw [hf]
        refine ⟨_, topModule nm, hip, ?_, ?_, ?_⟩
        · exact ⟨ImpStmt.imp names, List.mem_cons_self _ _,
            ⟨nm, List.mem_of_find?_eq_some hf, rfl⟩⟩
        · have hps :=
            @List.find?_some _ (fun nm => BLOCKED_MODULES.contains (topModule nm)) nm names hf
          exact (contains_mem_iff _ _).mp hps
        · exact (topModule_data_occurs nm).trans
            ⟨("Security: import of \x27").data, ("\x27 is not permitted").data,
             by simp [String.data_append]⟩
      | none =>
        obtain ⟨stmt, hstmt, hbs⟩ := hb
        rcases List.mem_cons.mp hstmt with heq | hrest
        · subst heq
          simp only [blockedImport] at hbs
          obtain ⟨nm, hnm, htop⟩ := hbs
          have hfx := List.find?_eq_none.mp hf nm hnm
          simp only [Bool.not_eq_true] at hfx
          rw [(contains_mem_iff _ _).mpr htop] at hfx
          exact Bool.noConfusion hfx
        · obtain ⟨r, m, hip, hm, hbm, hinf⟩ := ih ⟨stmt, hrest, hbs⟩
          have hip2 : importPass (ImpStmt.imp names :: rest) = some r := by
            show (match names.find? (fun nm => BLOCKED_MODULES.contains (topModule nm)) with
              | some nm => some ("Security: import of \x27" ++ nm ++ "\x27 is not permitted")
              | none => importPass rest) = _
            rw [hf, hip]
          refine ⟨r, m, hip2, ?_, hbm, hinf⟩
          obtain ⟨s2, hs2, hms⟩ := hm
          exact ⟨s2, List.mem_cons_of_mem _ hs2, hms⟩
    | impFrom mo =>
      cases hc : BLOCKED_MODULES.contains (topModule (mo.getD "")) with
      | true =>
        cases mo with
        | none => exact absurd hc (by decide)
        | some ms =>
          have hip : importPass (ImpStmt.impFrom (some ms) :: rest) =
              some ("Security: \x27from " ++ (some ms).getD "None" ++
                " import ...\x27 is not permitted") := by
            show (if BLOCKED_MODULES.contains (topModule ((some ms).getD "")) = true then
                some ("Security: \x27from " ++ (some ms).getD "None" ++
                  " import ...\x27 is not permitted")
              else importPass rest) = _
            rw [if_pos hc]
          refine ⟨_, topModule ms, hip, ?_, ?_, ?_⟩
          · exact ⟨ImpStmt.impFrom (some ms), List.mem_cons_self _ _, rfl⟩
          · exact (contains_mem_iff _ _).mp hc
          · exact (topModule_data_occurs ms).trans
              ⟨("Security: \x27from ").data, (" import ...\x27 is not permitted").data,
               by simp [String.data_append]⟩
      | false =>
        obtain ⟨stmt, hstmt, hbs⟩ := hb
        rcases List.mem_cons.mp hstmt with heq | hrest
        · subst heq
          simp only [blockedImport] at hbs
          have h2 := (contains_mem_iff _ _).mpr hbs
          rw [hc] at h2
          exact Bool.noConfusion h2
        · obtain ⟨r, m, hip, hm, hbm, hinf⟩ := ih ⟨stmt, hrest, hbs⟩
          have hip2 : importPass (ImpStmt.impFrom mo :: rest) = some r := by
            show (if BLOCKED_MODULES.contains (topModule (mo.getD "")) = true then
                some ("Security: \x27from " ++ mo.getD "None" ++
                  " import ...\x27 is not permitted")
              else importPass rest) = _
            rw [if_neg (by rw [hc]; exact Bool.noConfusion), hip]
          refine ⟨r, m, hip2, ?_, hbm, hinf⟩
          obtain ⟨s2, hs2, hms⟩ := hm
          exact ⟨s2, List.mem_cons_of_mem _ hs2, hms⟩

/-- C2: any code whose syntax tree contains an import (direct or from-style,
in any alias form) of a blocklisted top-level module is rejected by
`security_check`, and the rejection reason contains the name of a
blocklisted top-level module imported by the code. -/
theorem security_check_blocks_blocked_import
    (parse : String → Option (List ImpStmt)) (code : String) (tree : List ImpStmt)
    (hp : parse code = some tree) (hb : ∃ stmt ∈ tree, blockedImport stmt) :
    (security_check parse code).1 = false ∧
    ∃ m, (∃ stmt ∈ tree, importMentions m stmt) ∧ m ∈ BLOCKED_MODULES ∧
      m.data <:+: (security_check parse code).2.data := by
  obtain ⟨r, m, hip, hm, hbm, hinf⟩ := importPass_finds hb
  have hsc : security_check parse code = (false, r) := by
    simp [security_check, hp, hip]
  rw [hsc]
  exact ⟨rfl, m, hm, hbm, hinf⟩

theorem security_check_blocks_blocked_import_witness :
    (security_check (fun _ => some [ImpStmt.imp ["subprocess"]]) "import subprocess").1
      = false ∧
    ∃ m, (∃ stmt ∈ [ImpStmt.imp ["subprocess"]], importMentions m stmt) ∧
      m ∈ BLOCKED_MODULES ∧
      m.data <:+:
        (security_check (fun _ => some [ImpStmt.imp ["subprocess"]])
          "import subprocess").2.data :=
  security_check_blocks_blocked_import _ _ _ rfl
    ⟨ImpStmt.imp ["subprocess"], by simp, by simp [blockedImport]; decide⟩

theorem patternPass_false_iff (code : String) :
    (patternPass code).1 = false ↔
      ∃ pr ∈ COMPILED_BLOCKED_PATTERNS, reSearch pr.2 code = true := by
  unfold patternPass
  cases hf : COMPILED_BLOCKED_PATTERNS.find? (fun pr => reSearch pr.2 code) with
  | some pr =>
    have hps :=
      @List.find?_some _ (fun pr => reSearch pr.2 code) pr COMPILED_BLOCKED_PATTERNS hf
    exact ⟨fun _ => ⟨pr, List.mem_of_find?_eq_some hf, hps⟩, fun _ => rfl⟩
  | none =>
    refine ⟨fun h => Bool.noConfusion h, ?_⟩
    rintro ⟨pr, hmem, hsearch⟩
    exact absurd hsearch (by simpa using List.find?_eq_none.mp hf pr hmem)

/-- C3: when the code fails to parse (the `ast.parse` oracle reports a
SyntaxError) the import pass is skipped: `security_check` degenerates to the
pattern pass over the raw text, and the verdict is unsafe exactly when some
blocked pattern matches.  The embedding is a total function, so no exception
escapes. -/
theorem unparsable_screened_by_patterns_only
    (parse : String → Option (List ImpStmt)) (code : String)
    (hp : parse code = none) :
    security_check parse code = patternPass code ∧
    ((security_check parse code).1 = false ↔
      ∃ pr ∈ COMPILED_BLOCKED_PATTERNS, reSearch pr.2 code = true) := by
  have h1 : security_check parse code = patternPass code := by
    simp [security_check, hp]
  exact ⟨h1, h1 ▸ patternPass_false_iff code⟩

theorem unparsable_screened_by_patterns_only_witness :
    security_check (fun _ => none) "eval((" = patternPass "eval((" ∧
    ((security_check (fun _ => none) "eval((").1 = false ↔
      ∃ pr ∈ COMPILED_BLOCKED_PATTERNS, reSearch pr.2 "eval((" = true) :=
  unparsable_screened_by_patterns_only _ _ rfl

/-- C9 (amended): when the import pass finds nothing, the first pattern in
list order that matches the raw text determines the verdict, and the reason
carries the source text of that pattern (truncated to 60 characters). -/
theorem first_pattern_match_reason
    (parse : String → Option (List ImpStmt)) (code : String) (tree : List ImpStmt)
    (pr : String × List RE)
    (hp : parse code = some tree) (hi : importPass tree = none)
    (hf : COMPILED_BLOCKED_PATTERNS.find? (fun q => reSearch q.2 code) = some pr) :
    security_check parse code = (false, mkPatternReason pr.1) := by
  simp [security_check, hp, hi, patternPass, hf]

theorem first_pattern_match_reason_witness :
    security_check (fun _ => some []) "eval (1)" =
      (false, mkPatternReason "eval\\s*\\(") :=
  first_pattern_match_reason _ _ [] ("eval\\s*\\(", lits "eval" ++ [RE.wsStar, RE.lit '('])
    rfl rfl (by decide)

/-- C9 (counterexample): on `eval (1)` the pattern pass rejects via the
`eval` pattern, but the reason contains the source text of the regex, not
the matched code fragment: no fragment of the code that the pattern matches
occurs in the reason string. -/
theorem pattern_reason_lacks_matched_fragment :
    COMPILED_BLOCKED_PATTERNS.find? (fun q => reSearch q.2 "eval (1)") =
      some ("eval\\s*\\(", lits "eval" ++ [RE.wsStar, RE.lit '(']) ∧
    security_check (fun _ => some []) "eval (1)" =
      (false, "Security: pattern \x27eval\\s*\\(\x27 is not permitted") ∧
    (∀ frag ∈ infixesOf ("eval (1)".data),
      matchExact (lits "eval" ++ [RE.wsStar, RE.lit '(']) frag = true →
      ¬ frag <:+: ("Security: pattern \x27eval\\s*\\(\x27 is not permitted").data) := by
  refine ⟨by decide, by decide, by decide⟩

/-! ### Executor claims -/

theorem utf8Bytes_ascii {c : Nat} (h : c < 0x80) : utf8Bytes c = [c] := by
  unfold utf8Bytes
  rw [if_pos h]

theorem utf8Bytes_two {c : Nat} (h1 : 0x80 <= c) (h2 : c < 0x800) :
    utf8Bytes c = [0xc0 + c / 64, 0x80 + c % 64] := by
  unfold utf8Bytes
  rw [if_neg (by omega), if_pos h2]

theorem utf8Bytes_three {c : Nat} (h1 : 0x800 <= c) (h2 : c < 0x10000) :
    utf8Bytes c = [0xe0 + c / 4096, 0x80 + (c / 64) % 64, 0x80 + c % 64] := by
  unfold utf8Bytes
  rw [if_neg (by omega), if_neg (by omega), if_pos h2]

theorem utf8Bytes_four {c : Nat} (h1 : 0x10000 <= c) :
    utf8Bytes c =
      [0xf0 + c / 262144, 0x80 + (c / 4096) % 64, 0x80 + (c / 64) % 64, 0x80 + c % 64] := by
  unfold utf8Bytes
  rw [if_neg (by omega), if_neg (by omega), if_neg (by omega)]

theorem readUtf8_ascii {c : Nat} (h : c <= 0x7f) (X : List Nat) :
    readUtf8 c X = (some c, 0) := by
  unfold readUtf8
  rw [if_pos h]

theorem readUtf8_two {c : Nat} (h1 : 0x80 <= c) (h2 : c < 0x800) (X : List Nat) :
    readUtf8 (0xc0 + c / 64) ((0x80 + c % 64) :: X) = (some c, 1) := by
  unfold readUtf8
  rw [if_neg (by omega), if_pos (by omega)]
  dsimp only
  rw [if_pos (by omega)]
  have hval : (0xc0 + c / 64 - 0xc0) * 64 + (0x80 + c % 64 - 0x80) = c := by omega
  rw [hval]

theorem readUtf8_two_start {c : Nat} (h1 : 0x80 <= c) (h2 : c < 0x800) :
    readUtf8 (0xc0 + c / 64) [] = (none, 0) := by
  unfold readUtf8
  rw [if_neg (by omega), if_pos (by omega)]

theorem readUtf8_three {c : Nat} (h1 : 0x800 <= c) (h2 : c < 0x10000)
    (hs : c < 0xd800 ∨ 0xe000 <= c) (X : List Nat) :
    readUtf8 (0xe0 + c / 4096) ((0x80 + (c / 64) % 64) :: (0x80 + c % 64) :: X) =
      (some c, 2) := by
  unfold readUtf8
  rw [if_neg (by omega), if_neg (by omega), if_pos (by omega)]
  dsimp only
  rw [if_pos (by constructor <;> split_ifs <;> omega)]
  rw [if_pos (by omega)]
  have hval : (0xe0 + c / 4096 - 0xe0) * 4096 + (0x80 + (c / 64) % 64 - 0x80) * 64 +
      (0x80 + c % 64 - 0x80) = c := by omega
  rw [hval]

theorem readUtf8_three_start {c : Nat} (h1 : 0x800 <= c) (h2 : c < 0x10000) :
    readUtf8 (0xe0 + c / 4096) [] = (none, 0) := by
  unfold readUtf8
  rw [if_neg (by omega), if_neg (by omega), if_pos (by omega)]

theorem readUtf8_three_two {c : Nat} (h1 : 0x800 <= c) (h2 : c < 0x10000)
    (hs : c < 0xd800 ∨ 0xe000 <= c) :
    readUtf8 (0xe0 + c / 4096) [0x80 + (c / 64) % 64] = (none, 1) := by
  unfold readUtf8
  rw [if_neg (by omega), if_neg (by omega), if_pos (by omega)]
  dsimp only
  rw [if_pos (by constructor <;> split_ifs <;> omega)]

theorem readUtf8_four {c : Nat} (h1 : 0x10000 <= c) (h2 : c < 0x110000) (X : List Nat) :
    readUtf8 (0xf0 + c / 262144)
      ((0x80 + (c / 4096) % 64) :: (0x80 + (c / 64) % 64) :: (0x80 + c % 64) :: X) =
      (some c, 3) := by
  unfold readUtf8
  rw [if_neg (by omega), if_neg (by omega), if_neg (by omega), if_pos (by omega)]
  dsimp only
  rw [if_pos (by constructor <;> split_ifs <;> omega)]
  rw [if_pos (by omega)]
  rw [if_pos (by omega)]
  have hval : (0xf0 + c / 262144 - 0xf0) * 262144 + (0x80 + (c / 4096) % 64 - 0x80) * 4096 +
      (0x80 + (c / 64) % 64 - 0x80) * 64 + (0x80 + c % 64 - 0x80) = c := by omega
  rw [hval]

theorem readUtf8_four_start {c : Nat} (h1 : 0x10000 <= c) (h2 : c < 0x110000) :
    readUtf8 (0xf0 + c / 262144) [] = (none, 0) := by
  unfold readUtf8
  rw [if_neg (by omega), if_neg (by omega), if_neg (by omega), if_pos (by omega)]

theorem readUtf8_four_two {c : Nat} (h1 : 0x10000 <= c) (h2 : c < 0x110000) :
    readUtf8 (0xf0 + c / 262144) [0x80 + (c / 4096) % 64] = (none, 1) := by
  unfold readUtf8
  rw [if_neg (by omega), if_neg (by omega), if_neg (by omega), if_pos (by omega)]
  dsimp only
  rw [if_pos (by constructor <;> split_ifs <;> omega)]

theorem readUtf8_four_three {c : Nat} (h1 : 0x10000 <= c) (h2 : c < 0x110000) :
    readUtf8 (0xf0 + c / 262144) [0x80 + (c / 4096) % 64, 0x80 + (c / 64) % 64] =
      (none, 2) := by
  unfold readUtf8
  rw [if_neg (by omega), if_neg (by omega), if_neg (by omega), if_pos (by omega)]
  dsimp only
  rw [if_pos (by constructor <;> split_ifs <;> omega)]
  rw [if_pos (by omega)]

theorem pyDecodeEncode_nil : pyDecodeEncode [] = [] := by
  simp [pyDecodeEncode]

theorem pyDecodeEncode_cons (b : Nat) (rest : List Nat) :
    pyDecodeEncode (b :: rest) =
      match readUtf8 b rest with
      | (some cp, extra) => utf8Bytes cp ++ pyDecodeEncode (rest.drop extra)
      | (none, extra) => [0xef, 0xbf, 0xbd] ++ pyDecodeEncode (rest.drop extra) := by
  simp [pyDecodeEncode]

theorem char_scalar (ch : Char) :
    ch.toNat < 0xd800 ∨ (0xe000 <= ch.toNat ∧ ch.toNat < 0x110000) := by
  have h := ch.valid
  simp [UInt32.isValidChar, Nat.isValidChar] at h
  exact h

theorem pyDecodeEncode_valid_cons {c : Nat}
    (hv : c < 0xd800 ∨ (0xe000 <= c ∧ c < 0x110000)) (X : List Nat) :
    pyDecodeEncode (utf8Bytes c ++ X) = utf8Bytes c ++ pyDecodeEncode X := by
  by_cases h1 : c < 0x80
  . rw [utf8Bytes_ascii h1, List.singleton_append, pyDecodeEncode_cons,
      readUtf8_ascii (by omega) X]
    dsimp only
    rw [utf8Bytes_ascii h1, List.drop_zero, List.singleton_append]
  . by_cases h2 : c < 0x800
    . have e := utf8Bytes_two (by omega) h2
      rw [e]
      simp only [List.cons_append, List.nil_append]
      rw [pyDecodeEncode_cons, readUtf8_two (by omega) h2 X]
      dsimp only
      rw [e]
      simp only [List.drop_succ_cons, List.drop_zero, List.cons_append, List.nil_append]
    . by_cases h3 : c < 0x10000
      . have hs : c < 0xd800 ∨ 0xe000 <= c := hv.imp id And.left
        have e := utf8Bytes_three (by omega) h3
        rw [e]
        simp only [List.cons_append, List.nil_append]
        rw [pyDecodeEncode_cons, readUtf8_three (by omega) h3 hs X]
        dsimp only
        rw [e]
        simp only [List.drop_succ_cons, List.drop_zero, List.cons_append, List.nil_append]
      . have h4 : c < 0x110000 := by
          rcases hv with h | h
          . omega
          . exact h.2
        have e := utf8Bytes_four (show 0x10000 <= c by omega)
        rw [e]
        simp only [List.cons_append, List.nil_append]
        rw [pyDecodeEncode_cons, readUtf8_four (by omega) h4 X]
        dsimp only
        rw [e]
        simp only [List.drop_succ_cons, List.drop_zero, List.cons_append, List.nil_append]

theorem pyDecodeEncode_split_char {c : Nat}
    (hv : c < 0xd800 ∨ (0xe000 <= c ∧ c < 0x110000)) (n : Nat) (hn1 : 1 <= n)
    (hn2 : n < (utf8Bytes c).length) :
    pyDecodeEncode ((utf8Bytes c).take n) = [0xef, 0xbf, 0xbd] := by
  by_cases h1 : c < 0x80
  . rw [utf8Bytes_ascii h1] at hn2
    simp at hn2
    omega
  . by_cases h2 : c < 0x800
    . have e := utf8Bytes_two (by omega) h2
      rw [e] at hn2
      simp only [List.length_cons, List.length_nil] at hn2
      have hn : n = 1 := by omega
      subst hn
      rw [e]
      simp only [List.take_succ_cons, List.take_zero]
      rw [pyDecodeEncode_cons, readUtf8_two_start (by omega) h2]
      dsimp only
      simp [pyDecodeEncode_nil]
    . by_cases h3 : c < 0x10000
      . have hs : c < 0xd800 ∨ 0xe000 <= c := hv.imp id And.left
        have e := utf8Bytes_three (by omega) h3
        rw [e] at hn2
        simp only [List.length_cons, List.length_nil] at hn2
        rw [e]
        rcases (show n = 1 ∨ n = 2 by omega) with hn | hn <;> subst hn
        . simp only [List.take_succ_cons, List.take_zero]
          rw [pyDecodeEncode_cons, readUtf8_three_start (by omega) h3]
          dsimp only
          simp [pyDecodeEncode_nil]
        . simp only [List.take_succ_cons, List.take_zero]
          rw [pyDecodeEncode_cons, readUtf8_three_two (by omega) h3 hs]
          dsimp only
          simp [pyDecodeEncode_nil]
      . have h4 : c < 0x110000 := by
          rcases hv with h | h
          . omega
          . exact h.2
        have e := utf8Bytes_four (show 0x10000 <= c by omega)
        rw [e] at hn2
        simp only [List.length_cons, List.length_nil] at hn2
        rw [e]
        rcases (show n = 1 ∨ n = 2 ∨ n = 3 by omega) with hn | hn | hn <;> subst hn
        . simp only [List.take_succ_cons, List.take_zero]
          rw [pyDecodeEncode_cons, readUtf8_four_start (by omega) h4]
          dsimp only
          simp [pyDecodeEncode_nil]
        . simp only [List.take_succ_cons, List.take_zero]
          rw [pyDecodeEncode_cons, readUtf8_four_two (by omega) h4]
          dsimp only
          simp [pyDecodeEncode_nil]
        . simp only [List.take_succ_cons, List.take_zero]
          rw [pyDecodeEncode_cons, readUtf8_four_three (by omega) h4]
          dsimp only
          simp [pyDecodeEncode_nil]

theorem pyDecodeEncode_take_bound (cs : List Char) (n : Nat) :
    (pyDecodeEncode ((cs.flatMap (fun ch => utf8Bytes ch.toNat)).take n)).length <=
      ((cs.flatMap (fun ch => utf8Bytes ch.toNat)).take n).length + 2 := by
  induction cs generalizing n with
  | nil => simp [pyDecodeEncode_nil]
  | cons ch cs ih =>
    rw [List.flatMap_cons, List.take_append_eq_append_take]
    by_cases hn : (utf8Bytes ch.toNat).length <= n
    . rw [List.take_of_length_le hn, pyDecodeEncode_valid_cons (char_scalar ch)]
      rw [List.length_append, List.length_append]
      have := ih (n - (utf8Bytes ch.toNat).length)
      omega
    . have hz : n - (utf8Bytes ch.toNat).length = 0 := by omega
      rw [hz, List.take_zero, List.append_nil]
      by_cases hn0 : n = 0
      . subst hn0
        simp [pyDecodeEncode_nil]
      . rw [pyDecodeEncode_split_char (char_scalar ch) n (by omega) (by omega)]
        have hlen : ((utf8Bytes ch.toNat).take n).length = n := by
          rw [List.length_take]
          omega
        rw [hlen]
        simp only [List.length_cons, List.length_nil]
        omega

theorem pyDecodeEncode_ascii {l : List Nat} (h : ∀ x, x ∈ l -> x <= 0x7f) :
    pyDecodeEncode l = l := by
  induction l with
  | nil => exact pyDecodeEncode_nil
  | cons b rest ih =>
    rw [pyDecodeEncode_cons, readUtf8_ascii (h b (List.mem_cons_self b rest)) rest]
    dsimp only
    rw [utf8Bytes_ascii (by have := h b (List.mem_cons_self b rest); omega), List.drop_zero,
      List.singleton_append, ih (fun x hx => h x (List.mem_cons_of_mem b hx))]

theorem encodeUtf8_append (a b : String) :
    encodeUtf8 (a ++ b) = encodeUtf8 a ++ encodeUtf8 b := by
  simp [encodeUtf8, String.data_append]

theorem capStdout_length_enc (s : String) :
    (capStdout (encodeUtf8 s)).length <= MAX_OUTPUT_BYTES + 2 + TRUNC_NOTICE.length := by
  unfold capStdout
  split
  . rename_i h
    rw [List.length_append]
    have hb := pyDecodeEncode_take_bound s.data MAX_OUTPUT_BYTES
    have hlen : ((s.data.flatMap (fun ch => utf8Bytes ch.toNat)).take MAX_OUTPUT_BYTES).length
        <= MAX_OUTPUT_BYTES := by
      rw [List.length_take]
      omega
    have he : encodeUtf8 s = s.data.flatMap (fun ch => utf8Bytes ch.toNat) := rfl
    rw [he]
    omega
  . rename_i h
    omega

theorem capStderr_length_enc (s : String) :
    (capStderr (encodeUtf8 s)).length <= MAX_OUTPUT_BYTES + 2 := by
  unfold capStderr
  split
  . rename_i h
    have hb := pyDecodeEncode_take_bound s.data MAX_OUTPUT_BYTES
    have hlen : ((s.data.flatMap (fun ch => utf8Bytes ch.toNat)).take MAX_OUTPUT_BYTES).length
        <= MAX_OUTPUT_BYTES := by
      rw [List.length_take]
      omega
    have he : encodeUtf8 s = s.data.flatMap (fun ch => utf8Bytes ch.toNat) := rfl
    rw [he]
    omega
  . rename_i h
    omega

/-- C5 (amended): for outputs that are encodings of interpreter text (what
`communicate(text=True)` followed by `.encode()` yields), every execution
result has stdout of at most the cap plus two bytes plus the truncation
notice and stderr of at most the cap plus two bytes -- the two extra bytes
arise when the 2 MiB cut splits a multibyte character and the
decode-with-replace re-encodes to U+FFFD.  An oversized stdout becomes the
decode-replaced capped prefix with the notice appended; an oversized stderr
becomes the decode-replaced capped prefix with nothing appended.  The
embedding is total, so oversized output cannot fault. -/
theorem output_caps_enforced (tstr : String) :
    (∀ (so se : String) (rc : Int),
      (runResult tstr
          (ChildOutcome.completed (encodeUtf8 so) (encodeUtf8 se) rc)).stdout.length <=
        MAX_OUTPUT_BYTES + 2 + TRUNC_NOTICE.length ∧
      (runResult tstr
          (ChildOutcome.completed (encodeUtf8 so) (encodeUtf8 se) rc)).stderr.length <=
        MAX_OUTPUT_BYTES + 2) ∧
    (∀ (so se : String),
      (runResult tstr (ChildOutcome.timedOut (encodeUtf8 so) (encodeUtf8 se))).stdout.length <=
        MAX_OUTPUT_BYTES + 2 + TRUNC_NOTICE.length ∧
      (runResult tstr (ChildOutcome.timedOut (encodeUtf8 so) (encodeUtf8 se))).stderr.length <=
        MAX_OUTPUT_BYTES + 2) ∧
    (∀ (out err : List Nat) (rc : Int), MAX_OUTPUT_BYTES < out.length ->
      (runResult tstr (ChildOutcome.completed out err rc)).stdout =
        pyDecodeEncode (out.take MAX_OUTPUT_BYTES) ++ TRUNC_NOTICE) ∧
    (∀ (out err : List Nat) (rc : Int), MAX_OUTPUT_BYTES < err.length ->
      (runResult tstr (ChildOutcome.completed out err rc)).stderr =
        pyDecodeEncode (err.take MAX_OUTPUT_BYTES)) := by
  refine ⟨?_, ?_, ?_, ?_⟩
  . intro so se rc
    exact ⟨capStdout_length_enc so, capStderr_length_enc se⟩
  . intro so se
    refine ⟨capStdout_length_enc so, ?_⟩
    show (capStderr (encodeUtf8 se ++ timeoutMarker tstr)).length <= MAX_OUTPUT_BYTES + 2
    have hm : encodeUtf8 se ++ timeoutMarker tstr =
        encodeUtf8 (se ++ ("\n⏱️ Execution timed out after " ++ tstr ++ "s")) := by
      rw [encodeUtf8_append]
      rfl
    rw [hm]
    exact capStderr_length_enc _
  . intro out err rc h
    show capStdout out = _
    unfold capStdout
    rw [if_pos h]
  . intro out err rc h
    show capStderr err = _
    unfold capStderr
    rw [if_pos h]

theorem output_caps_enforced_witness :
    ((runResult "3.0"
        (ChildOutcome.completed (encodeUtf8 "hi") (encodeUtf8 "oops") 0)).stdout.length <=
      MAX_OUTPUT_BYTES + 2 + TRUNC_NOTICE.length ∧
     (runResult "3.0"
        (ChildOutcome.completed (encodeUtf8 "hi") (encodeUtf8 "oops") 0)).stderr.length <=
      MAX_OUTPUT_BYTES + 2) ∧
    (runResult "3.0"
        (ChildOutcome.completed (List.replicate (MAX_OUTPUT_BYTES + 1) 65) [] 0)).stdout =
      pyDecodeEncode ((List.replicate (MAX_OUTPUT_BYTES + 1) 65).take MAX_OUTPUT_BYTES) ++
        TRUNC_NOTICE ∧
    (runResult "3.0"
        (ChildOutcome.completed [] (List.replicate (MAX_OUTPUT_BYTES + 1) 65) 0)).stderr =
      pyDecodeEncode ((List.replicate (MAX_OUTPUT_BYTES + 1) 65).take MAX_OUTPUT_BYTES) :=
  ⟨(output_caps_enforced "3.0").1 "hi" "oops" 0,
   (output_caps_enforced "3.0").2.2.1 _ [] 0 (by simp),
   (output_caps_enforced "3.0").2.2.2 [] _ 0 (by simp)⟩

/-- C5 (counterexample): an oversized stderr is truncated with no marker
appended, although the claim requires the truncation marker on each stream
that exceeded the cap: the result is exactly the (decode-preserved) capped
prefix, and the truncation notice is not a suffix of it. -/
theorem stderr_truncated_without_marker :
    MAX_OUTPUT_BYTES < (List.replicate (MAX_OUTPUT_BYTES + 1) 65).length ∧
    (runResult "30.0"
        (ChildOutcome.completed [] (List.replicate (MAX_OUTPUT_BYTES + 1) 65) 0)).stderr =
      List.replicate MAX_OUTPUT_BYTES 65 ∧
    ¬ TRUNC_NOTICE <:+ List.replicate MAX_OUTPUT_BYTES 65 := by
  have hlen : (List.replicate (MAX_OUTPUT_BYTES + 1) (65 : Nat)).length =
      MAX_OUTPUT_BYTES + 1 := List.length_replicate _ _
  refine ⟨by rw [hlen]; exact Nat.lt_succ_self _, ?_, ?_⟩
  . dsimp only [runResult]
    unfold capStderr
    rw [if_pos (show MAX_OUTPUT_BYTES <
        (List.replicate (MAX_OUTPUT_BYTES + 1) (65 : Nat)).length by
      rw [hlen]; exact Nat.lt_succ_self _)]
    have ht : (List.replicate (MAX_OUTPUT_BYTES + 1) (65 : Nat)).take MAX_OUTPUT_BYTES =
        List.replicate MAX_OUTPUT_BYTES 65 := by
      rw [List.take_replicate]
      congr 1
    rw [ht, pyDecodeEncode_ascii]
    intro x hx
    have := List.eq_of_mem_replicate hx
    omega
  . rintro ⟨t, ht⟩
    have h46 : (46 : Nat) ∈ TRUNC_NOTICE := by decide
    have hmem : (46 : Nat) ∈ List.replicate MAX_OUTPUT_BYTES 65 := by
      rw [← ht]
      exact List.mem_append_right t h46
    exact absurd (List.eq_of_mem_replicate hmem) (by decide)

/-- C4 (amended): when the child exceeds the deadline, `run_code` still
returns the collected output (subject to the output caps), appends the
timeout marker to stderr before the caps are applied, and fixes the exit
code to 124; whenever the marked stderr is within the cap the marker is
present verbatim. -/
theorem timeout_result (st : SvcState) (scriptId tstr code : String) (stdin : JValue)
    (wd : Option Nat) (stateless : Bool) (out err : List Nat) :
    (run_code st scriptId tstr (StepOracle.runs (ChildOutcome.timedOut out err))
        code stdin wd stateless).1 =
      Except.ok ⟨capStdout out, capStderr (err ++ timeoutMarker tstr), 124⟩ ∧
    ((err ++ timeoutMarker tstr).length ≤ MAX_OUTPUT_BYTES →
      capStderr (err ++ timeoutMarker tstr) = err ++ timeoutMarker tstr) := by
  refine ⟨rfl, fun h => ?_⟩
  unfold capStderr
  rw [if_neg (by omega)]

theorem timeout_result_witness :
    (run_code ⟨[], 0, []⟩ "ab" "5.0" (StepOracle.runs (ChildOutcome.timedOut [72] []))
        "x" (JValue.str "") none true).1 =
      Except.ok ⟨capStdout [72], capStderr ([] ++ timeoutMarker "5.0"), 124⟩ ∧
    capStderr ([] ++ timeoutMarker "5.0") = [] ++ timeoutMarker "5.0" :=
  ⟨(timeout_result ⟨[], 0, []⟩ "ab" "5.0" "x" (JValue.str "") none true [72] []).1,
   (timeout_result ⟨[], 0, []⟩ "ab" "5.0" "x" (JValue.str "") none true [72] []).2
     (by decide)⟩

/-- C4 (counterexample): the timeout exit code 124 is not distinct from the
exit codes the executed code itself can produce: a child that exits normally
with status 124 yields exactly the same exit code in the result as a child
that was killed on timeout. -/
theorem timeout_sentinel_collides :
    (run_code ⟨[], 0, []⟩ "ab" "30.0"
        (StepOracle.runs (ChildOutcome.completed [65] [66] 124))
        "raise SystemExit(124)" (JValue.str "") none true).1 =
      Except.ok ⟨[65], [66], 124⟩ ∧
    (run_code ⟨[], 0, []⟩ "ab" "30.0"
        (StepOracle.runs (ChildOutcome.timedOut [65] [66]))
        "while True: pass" (JValue.str "") none true).1 =
      Except.ok ⟨[65], [66] ++ timeoutMarker "30.0", 124⟩ := by
  constructor
  · show Except.ok (runResult "30.0" (ChildOutcome.completed [65] [66] 124)) = _
    simp only [runResult, capStdout, capStderr]
    rw [if_neg (by decide), if_neg (by decide)]
  · show Except.ok (runResult "30.0" (ChildOutcome.timedOut [65] [66])) = _
    simp only [runResult, capStdout, capStderr]
    rw [if_neg (by decide), if_neg (by decide)]

/-- C7: on every exit path of `run_code` (normal completion, nonzero exit,
timeout, spawn failure, write failure) the per-call script file is absent
from the final filesystem, and when the call created its own directory and
is stateless, the directory and everything inside it are absent as well. -/
theorem run_code_cleanup (st : SvcState) (scriptId tstr code : String) (stdin : JValue)
    (wd : Option Nat) (stateless : Bool) (oracle : StepOracle) :
    FsPath.file (run_code st scriptId tstr oracle code stdin wd stateless).2.2.usedWd
        (run_code st scriptId tstr oracle code stdin wd stateless).2.2.scriptName
      ∉ (run_code st scriptId tstr oracle code stdin wd stateless).2.1.fs ∧
    (wd = none → stateless = true →
      FsPath.dir (run_code st scriptId tstr oracle code stdin wd stateless).2.2.usedWd
        ∉ (run_code st scriptId tstr oracle code stdin wd stateless).2.1.fs ∧
      ∀ nm, FsPath.file (run_code st scriptId tstr oracle code stdin wd stateless).2.2.usedWd nm
        ∉ (run_code st scriptId tstr oracle code stdin wd stateless).2.1.fs) := by
  simp only [run_code]
  constructor
  · split
    · intro hmem
      have h2 := (List.mem_filter.mp hmem).1
      have h3 := (List.mem_filter.mp h2).2
      simp at h3
    · intro hmem
      have h3 := (List.mem_filter.mp hmem).2
      simp at h3
  · intro hwd hsl
    subst hwd
    subst hsl
    constructor
    · intro hmem
      split at hmem
      · have h3 := (List.mem_filter.mp hmem).2
        simp [underDir] at h3
      · rename_i hcond
        exact hcond (by simp)
    · intro nm hmem
      split at hmem
      · have h3 := (List.mem_filter.mp hmem).2
        simp [underDir] at h3
      · rename_i hcond
        exact hcond (by simp)

theorem run_code_cleanup_witness :
    FsPath.file
        (run_code ⟨[], 0, []⟩ "ab" "5.0" (StepOracle.runs (ChildOutcome.completed [] [] 0))
          "x" (JValue.str "") none true).2.2.usedWd
        (run_code ⟨[], 0, []⟩ "ab" "5.0" (StepOracle.runs (ChildOutcome.completed [] [] 0))
          "x" (JValue.str "") none true).2.2.scriptName
      ∉ (run_code ⟨[], 0, []⟩ "ab" "5.0" (StepOracle.runs (ChildOutcome.completed [] [] 0))
          "x" (JValue.str "") none true).2.1.fs ∧
    (FsPath.dir
        (run_code ⟨[], 0, []⟩ "ab" "5.0" (StepOracle.runs (ChildOutcome.completed [] [] 0))
          "x" (JValue.str "") none true).2.2.usedWd
      ∉ (run_code ⟨[], 0, []⟩ "ab" "5.0" (StepOracle.runs (ChildOutcome.completed [] [] 0))
          "x" (JValue.str "") none true).2.1.fs ∧
      ∀ nm, FsPath.file
        (run_code ⟨[], 0, []⟩ "ab" "5.0" (StepOracle.runs (ChildOutcome.completed [] [] 0))
          "x" (JValue.str "") none true).2.2.usedWd nm
        ∉ (run_code ⟨[], 0, []⟩ "ab" "5.0" (StepOracle.runs (ChildOutcome.completed [] [] 0))
          "x" (JValue.str "") none true).2.1.fs) :=
  ⟨(run_code_cleanup ⟨[], 0, []⟩ "ab" "5.0" "x" (JValue.str "") none true
      (StepOracle.runs (ChildOutcome.completed [] [] 0))).1,
   (run_code_cleanup ⟨[], 0, []⟩ "ab" "5.0" "x" (JValue.str "") none true
      (StepOracle.runs (ChildOutcome.completed [] [] 0))).2 rfl rfl⟩

/-! ### Orchestration claims -/

theorem extract_code_obj_nil : extract_code (JValue.obj []) = CodeExtract.noCode := rfl

/-- A well-formed session-less request reduces `execute` to a stateless
`run_code` call wrapped by `finishResp`. -/
theorem execute_stateless_reduces
    (parse : String → Option (List ImpStmt)) (tstr now scriptId : String)
    (oracle : StepOracle) (st : SvcState) (fields : List (String × JValue))
    (c : String) (tm : Int)
    (hex : extract_code (JValue.obj fields) = CodeExtract.found (JValue.str c))
    (htm : toTimeoutMs (jget (JValue.obj fields) "run_timeout" (JValue.num 30000)) = some tm)
    (hsc : (security_check parse c).1 = true)
    (hsid : (jget (JValue.obj fields) "session_id" JValue.null).truthy = false) :
    execute parse tstr now scriptId oracle st (JValue.obj fields) =
      finishResp (jget (JValue.obj fields) "session_id" JValue.null)
        (run_code st scriptId tstr oracle c
          (jget (JValue.obj fields) "stdin" (JValue.str "")) none true) := by
  cases fields with
  | nil =>
    rw [extract_code_obj_nil] at hex
    exact CodeExtract.noConfusion hex
  | cons kv rest =>
    have htr : JValue.truthy (JValue.obj (kv :: rest)) = true := by simp [JValue.truthy]
    simp only [execute, hex, htm, hsc, hsid, htr, if_true, if_false,
      Bool.false_eq_true, Bool.true_eq_false, reduceIte]

/-- C8: (1) two sequential `get_or_create_session` calls with the same id
return the identical session record, and the second call leaves the store,
the directory counter and the filesystem untouched (no second directory);
(2) two session-less executions use distinct transient working
directories. -/
theorem session_directory_discipline :
    (∀ (st : SvcState) (sid now1 now2 : String),
      (get_or_create_session ((get_or_create_session st sid now1).2) sid now2).1 =
        (get_or_create_session st sid now1).1 ∧
      (get_or_create_session ((get_or_create_session st sid now1).2) sid now2).2 =
        (get_or_create_session st sid now1).2) ∧
    (∀ (parse : String → Option (List ImpStmt)) (tstr now scriptId1 scriptId2 : String)
      (oracle1 oracle2 : StepOracle) (st : SvcState)
      (fields1 fields2 : List (String × JValue)) (c1 c2 : String) (tm1 tm2 : Int),
      extract_code (JValue.obj fields1) = CodeExtract.found (JValue.str c1) →
      extract_code (JValue.obj fields2) = CodeExtract.found (JValue.str c2) →
      toTimeoutMs (jget (JValue.obj fields1) "run_timeout" (JValue.num 30000)) = some tm1 →
      toTimeoutMs (jget (JValue.obj fields2) "run_timeout" (JValue.num 30000)) = some tm2 →
      (security_check parse c1).1 = true →
      (security_check parse c2).1 = true →
      (jget (JValue.obj fields1) "session_id" JValue.null).truthy = false →
      (jget (JValue.obj fields2) "session_id" JValue.null).truthy = false →
      ∃ w1 w2 : Nat,
        (execute parse tstr now scriptId1 oracle1 st (JValue.obj fields1)).2.2.runCall.map
          RunCallInfo.usedWd = some w1 ∧
        (execute parse tstr now scriptId2 oracle2
            (execute parse tstr now scriptId1 oracle1 st (JValue.obj fields1)).2.1
            (JValue.obj fields2)).2.2.runCall.map RunCallInfo.usedWd = some w2 ∧
        w1 ≠ w2) := by
  constructor
  · intro st sid now1 now2
    cases h : slookup st.store sid with
    | some s => simp [get_or_create_session, h]
    | none => simp [get_or_create_session, h, slookup]
  · intro parse tstr now scriptId1 scriptId2 oracle1 oracle2 st fields1 fields2 c1 c2
      tm1 tm2 hex1 hex2 htm1 htm2 hsc1 hsc2 hsid1 hsid2
    rw [execute_stateless_reduces parse tstr now scriptId1 oracle1 st fields1 c1 tm1
      hex1 htm1 hsc1 hsid1]
    have hctr : (finishResp (jget (JValue.obj fields1) "session_id" JValue.null)
        (run_code st scriptId1 tstr oracle1 c1
          (jget (JValue.obj fields1) "stdin" (JValue.str "")) none true)).2.1.ctr =
        st.ctr + 1 := by
      cases oracle1 <;> simp [finishResp, run_code]
    rw [execute_stateless_reduces parse tstr now scriptId2 oracle2 _ fields2 c2 tm2
      hex2 htm2 hsc2 hsid2]
    refine ⟨st.ctr,
      (finishResp (jget (JValue.obj fields1) "session_id" JValue.null)
        (run_code st scriptId1 tstr oracle1 c1
          (jget (JValue.obj fields1) "stdin" (JValue.str "")) none true)).2.1.ctr,
      ?_, ?_, ?_⟩
    · cases oracle1 <;> simp [finishResp, run_code]
    · cases oracle2 <;> simp [finishResp, run_code]
    · rw [hctr]
      omega

theorem session_directory_discipline_witness :
    ((get_or_create_session ((get_or_create_session ⟨[], 0, []⟩ "s1" "t1").2) "s1" "t2").1 =
      (get_or_create_session ⟨[], 0, []⟩ "s1" "t1").1 ∧
     (get_or_create_session ((get_or_create_session ⟨[], 0, []⟩ "s1" "t1").2) "s1" "t2").2 =
      (get_or_create_session ⟨[], 0, []⟩ "s1" "t1").2) ∧
    ∃ w1 w2 : Nat,
      (execute (fun _ => some []) "30.0" "t" "a1"
          (StepOracle.runs (ChildOutcome.completed [] [] 0)) ⟨[], 0, []⟩
          (JValue.obj [("code", JValue.str "print(1)")])).2.2.runCall.map
        RunCallInfo.usedWd = some w1 ∧
      (execute (fun _ => some []) "30.0" "t" "a2"
          (StepOracle.runs (ChildOutcome.completed [] [] 0))
          (execute (fun _ => some []) "30.0" "t" "a1"
            (StepOracle.runs (ChildOutcome.completed [] [] 0)) ⟨[], 0, []⟩
            (JValue.obj [("code", JValue.str "print(1)")])).2.1
          (JValue.obj [("code", JValue.str "print(1)")])).2.2.runCall.map
        RunCallInfo.usedWd = some w2 ∧
      w1 ≠ w2 :=
  ⟨session_directory_discipline.1 ⟨[], 0, []⟩ "s1" "t1" "t2",
   session_directory_discipline.2 (fun _ => some []) "30.0" "t" "a1" "a2"
     (StepOracle.runs (ChildOutcome.completed [] [] 0))
     (StepOracle.runs (ChildOutcome.completed [] [] 0)) ⟨[], 0, []⟩
     [("code", JValue.str "print(1)")] [("code", JValue.str "print(1)")]
     "print(1)" "print(1)" 30000 30000 rfl rfl rfl rfl rfl rfl rfl rfl⟩

/-- C1: a request whose code fails the security screen gets the rejection
envelope (HTTP 200, `blocked` true, the reason string) immediately: the
session store, the directory counter and the filesystem are unchanged and
`run_code` is never invoked. -/
theorem blocked_request_rejected
    (parse : String → Option (List ImpStmt)) (tstr now scriptId : String)
    (oracle : StepOracle) (st : SvcState) (fields : List (String × JValue))
    (c r : String) (tm : Int)
    (hex : extract_code (JValue.obj fields) = CodeExtract.found (JValue.str c))
    (htm : toTimeoutMs (jget (JValue.obj fields) "run_timeout" (JValue.num 30000)) = some tm)
    (hsc : security_check parse c = (false, r)) :
    execute parse tstr now scriptId oracle st (JValue.obj fields) =
      (blockedResp r, st, ⟨true, none⟩) := by
  cases fields with
  | nil =>
    rw [extract_code_obj_nil] at hex
    exact CodeExtract.noConfusion hex
  | cons kv rest =>
    have htr : JValue.truthy (JValue.obj (kv :: rest)) = true := by simp [JValue.truthy]
    simp only [execute, hex, htm, hsc, htr, if_true, if_false,
      Bool.false_eq_true, Bool.true_eq_false, reduceIte]

theorem blocked_request_rejected_witness :
    execute (fun _ => some []) "30.0" "t" "ab"
        (StepOracle.runs (ChildOutcome.completed [] [] 0)) ⟨[], 0, []⟩
        (JValue.obj [("code", JValue.str "eval(1)")]) =
      (blockedResp "Security: pattern \x27eval\\s*\\(\x27 is not permitted", ⟨[], 0, []⟩,
        ⟨true, none⟩) :=
  blocked_request_rejected (fun _ => some []) "30.0" "t" "ab"
    (StepOracle.runs (ChildOutcome.completed [] [] 0)) ⟨[], 0, []⟩
    [("code", JValue.str "eval(1)")] "eval(1)"
    "Security: pattern \x27eval\\s*\\(\x27 is not permitted" 30000 rfl rfl rfl

/-- C6 (amended): an unexpected internal fault (here: a spawn failure with
message `msg`) yields the generic internal-error envelope: HTTP 500, empty
stdout, no stack trace — but the stderr text embeds the exception message
itself. -/
theorem internal_fault_envelope
    (parse : String → Option (List ImpStmt)) (tstr now scriptId : String)
    (st : SvcState) (fields : List (String × JValue)) (c : String) (tm : Int)
    (msg : String)
    (hex : extract_code (JValue.obj fields) = CodeExtract.found (JValue.str c))
    (htm : toTimeoutMs (jget (JValue.obj fields) "run_timeout" (JValue.num 30000)) = some tm)
    (hsc : (security_check parse c).1 = true)
    (hsid : (jget (JValue.obj fields) "session_id" JValue.null).truthy = false) :
    (execute parse tstr now scriptId (StepOracle.spawnFails msg) st (JValue.obj fields)).1 =
      internalErrorResp msg ∧
    (internalErrorResp msg).status = 500 ∧
    (internalErrorResp msg).run =
      some ⟨[], encodeUtf8 ("Internal Service Error: " ++ msg), 1⟩ ∧
    encodeUtf8 msg <:+: encodeUtf8 ("Internal Service Error: " ++ msg) := by
  refine ⟨?_, rfl, rfl, ?_⟩
  · rw [execute_stateless_reduces parse tstr now scriptId (StepOracle.spawnFails msg)
      st fields c tm hex htm hsc hsid]
    rfl
  · exact ⟨encodeUtf8 "Internal Service Error: ", [],
      by rw [List.append_nil, ← encodeUtf8_append]⟩

theorem internal_fault_envelope_witness :
    (execute (fun _ => some []) "30.0" "t" "ab" (StepOracle.spawnFails "boom")
        ⟨[], 0, []⟩ (JValue.obj [("code", JValue.str "print(1)")])).1 =
      internalErrorResp "boom" ∧
    (internalErrorResp "boom").status = 500 ∧
    (internalErrorResp "boom").run =
      some ⟨[], encodeUtf8 ("Internal Service Error: " ++ "boom"), 1⟩ ∧
    encodeUtf8 "boom" <:+: encodeUtf8 ("Internal Service Error: " ++ "boom") :=
  internal_fault_envelope (fun _ => some []) "30.0" "t" "ab" ⟨[], 0, []⟩
    [("code", JValue.str "print(1)")] "print(1)" 30000 "boom" rfl rfl rfl rfl

/-- C6 (counterexample): the internal-error envelope leaks the exception
text to the caller: the injected fault message appears verbatim inside the
stderr of the response, contradicting `no internal diagnostic detail`. -/
theorem internal_fault_leaks_exception_text :
    ((execute (fun _ => some []) "30.0" "t" "ab"
        (StepOracle.spawnFails "[Errno 13] /app/secret.key") ⟨[], 0, []⟩
        (JValue.obj [("code", JValue.str "print(1)")])).1.run.map ExecResult.stderr) =
      some (encodeUtf8 ("Internal Service Error: " ++ "[Errno 13] /app/secret.key")) ∧
    encodeUtf8 "[Errno 13] /app/secret.key" <:+:
      encodeUtf8 ("Internal Service Error: " ++ "[Errno 13] /app/secret.key") := by
  constructor
  · rfl
  · exact ⟨encodeUtf8 "Internal Service Error: ", [],
      by rw [List.append_nil, ← encodeUtf8_append]⟩

/-- C10 (amended): the screened code value is the first file content when it
is truthy; otherwise the top-level `code` field decides (truthy: used, else
`No code provided`); entries of `files` after the first are never consulted;
and a request with no code terminates with the 400 error before security
screening runs and before the session store, counter or filesystem are
touched. -/
theorem code_extraction_rules :
    (∀ (fields e : List (String × JValue)) (rest : List JValue),
      jget (JValue.obj fields) "files" (JValue.arr []) =
        JValue.arr (JValue.obj e :: rest) →
      (jget (JValue.obj e) "content" (JValue.str "")).truthy = true →
      extract_code (JValue.obj fields) =
        CodeExtract.found (jget (JValue.obj e) "content" (JValue.str ""))) ∧
    (∀ (fields e : List (String × JValue)) (rest : List JValue),
      jget (JValue.obj fields) "files" (JValue.arr []) =
        JValue.arr (JValue.obj e :: rest) →
      (jget (JValue.obj e) "content" (JValue.str "")).truthy = false →
      extract_code (JValue.obj fields) =
        (if (jget (JValue.obj fields) "code" (JValue.str "")).truthy then
          CodeExtract.found (jget (JValue.obj fields) "code" (JValue.str ""))
        else CodeExtract.noCode)) ∧
    (∀ (data1 data2 h : JValue) (r1 r2 : List JValue),
      jget data1 "files" (JValue.arr []) = JValue.arr (h :: r1) →
      jget data2 "files" (JValue.arr []) = JValue.arr (h :: r2) →
      jget data1 "code" (JValue.str "") = jget data2 "code" (JValue.str "") →
      extract_code data1 = extract_code data2) ∧
    (∀ (parse : String → Option (List ImpStmt)) (tstr now scriptId : String)
      (oracle : StepOracle) (st : SvcState) (fields : List (String × JValue)),
      extract_code (JValue.obj fields) = CodeExtract.noCode →
      JValue.truthy (JValue.obj fields) = true →
      execute parse tstr now scriptId oracle st (JValue.obj fields) =
        (noCodeResp, st, ⟨false, none⟩)) := by
  refine ⟨?_, ?_, ?_, ?_⟩
  · intro fields e rest hfiles hct
    simp only [extract_code, firstFileContent, hfiles, hct, if_true, reduceIte]
  · intro fields e rest hfiles hct
    simp only [extract_code, firstFileContent, hfiles, hct, if_false,
      Bool.false_eq_true, reduceIte]
  · intro data1 data2 h r1 r2 hf1 hf2 hcode
    cases h <;>
      simp only [extract_code, firstFileContent, hf1, hf2, hcode]
  · intro parse tstr now scriptId oracle st fields hex htr
    simp only [execute, hex, htr, if_true, reduceIte]

theorem code_extraction_rules_witness :
    extract_code (JValue.obj
        [("files", JValue.arr [JValue.obj [("content", JValue.str "x = 1")]]),
         ("code", JValue.str "print(2)")]) =
      CodeExtract.found (jget (JValue.obj [("content", JValue.str "x = 1")]) "content"
        (JValue.str "")) ∧
    extract_code (JValue.obj
        [("files", JValue.arr [JValue.obj [("content", JValue.str "")]]),
         ("code", JValue.str "print(2)")]) =
      (if (jget (JValue.obj
          [("files", JValue.arr [JValue.obj [("content", JValue.str "")]]),
           ("code", JValue.str "print(2)")]) "code" (JValue.str "")).truthy then
        CodeExtract.found (jget (JValue.obj
          [("files", JValue.arr [JValue.obj [("content", JValue.str "")]]),
           ("code", JValue.str "print(2)")]) "code" (JValue.str ""))
      else CodeExtract.noCode) ∧
    extract_code (JValue.obj
        [("files", JValue.arr [JValue.obj [("content", JValue.str "x = 1")],
          JValue.num 1])]) =
      extract_code (JValue.obj
        [("files", JValue.arr [JValue.obj [("content", JValue.str "x = 1")],
          JValue.str "ignored"])]) ∧
    execute (fun _ => some []) "30.0" "t" "ab"
        (StepOracle.runs (ChildOutcome.completed [] [] 0)) ⟨[], 0, []⟩
        (JValue.obj [("code", JValue.str "")]) =
      (noCodeResp, ⟨[], 0, []⟩, ⟨false, none⟩) :=
  ⟨code_extraction_rules.1 _ [("content", JValue.str "x = 1")] [] rfl rfl,
   code_extraction_rules.2.1 _ [("content", JValue.str "")] [] rfl rfl,
   code_extraction_rules.2.2.1 _ _ (JValue.obj [("content", JValue.str "x = 1")])
     [JValue.num 1] [JValue.str "ignored"] rfl rfl rfl,
   code_extraction_rules.2.2.2 (fun _ => some []) "30.0" "t" "ab"
     (StepOracle.runs (ChildOutcome.completed [] [] 0)) ⟨[], 0, []⟩
     [("code", JValue.str "")] rfl rfl⟩

/-- C10 (counterexample): a truthy non-string first file content (here the
number 42) is used as the screened code value, although the claim says the
top-level `code` field is used whenever the content is not a non-empty
string; and a first `files` entry that is not an object raises an internal
fault instead of falling back to the `code` field. -/
theorem code_extraction_counterexample :
    extract_code (JValue.obj
        [("files", JValue.arr [JValue.obj [("content", JValue.num 42)]]),
         ("code", JValue.str "print(1)")]) =
      CodeExtract.found (JValue.num 42) ∧
    JValue.num 42 ≠ JValue.str "print(1)" ∧
    extract_code (JValue.obj
        [("files", JValue.arr [JValue.num 7]),
         ("code", JValue.str "print(1)")]) =
      CodeExtract.fault "AttributeError: object has no attribute \x27get\x27" :=
  ⟨rfl, fun h => JValue.noConfusion h, rfl⟩

end PyExec
